import Mathlib

/-!
Shallow embedding of `src/native/icon_text.rs` from the `iced_aw` repository:
the `IconText` widget (an icon-font text element for the iced GUI toolkit),
together with theorems checking the natural-language specification.

Host-toolkit types that the widget merely calls into (the layout `Limits`
object, the text-measurement renderer) are modelled abstractly as records of
operations, since the widget only forwards to them.  Screen coordinates
(`f32` in the source) are modelled as rationals; the source performs only
addition and division by two on them, which is exact.  The `u16` size is
modelled as `Nat`.
-/

namespace IconTextSpec

/-- Sizing policy along one axis (host `iced_native::Length`). -/
inductive Length where
  | Fill : Length
  | FillPortion : Nat → Length
  | Shrink : Length
  | Units : Nat → Length
deriving DecidableEq

/-- Horizontal alignment (host `iced_native::alignment::Horizontal`). -/
inductive Horizontal where
  | Left : Horizontal
  | Center : Horizontal
  | Right : Horizontal
deriving DecidableEq

/-- Vertical alignment (host `iced_native::alignment::Vertical`). -/
inductive Vertical where
  | Top : Vertical
  | Center : Vertical
  | Bottom : Vertical
deriving DecidableEq

/-- RGBA color (host `iced_native::Color`); `f32` channels modelled as `ℚ`. -/
structure Color where
  r : ℚ
  g : ℚ
  b : ℚ
  a : ℚ
deriving DecidableEq

/-- A width/height pair (host `iced_native::Size`). -/
structure Size where
  width : ℚ
  height : ℚ
deriving DecidableEq

/-- `Size::new(width, height)`. -/
def Size.new (width height : ℚ) : Size := ⟨width, height⟩

/-- A point (host `iced_graphics::Point`), the unused `cursor_position` input. -/
structure Point where
  x : ℚ
  y : ℚ
deriving DecidableEq

/-- Axis-aligned rectangle (host `iced_native::Rectangle`). -/
structure Rectangle where
  x : ℚ
  y : ℚ
  width : ℚ
  height : ℚ
deriving DecidableEq

/-- `Rectangle::center_x`: `self.x + self.width / 2.0`. -/
def Rectangle.center_x (r : Rectangle) : ℚ := r.x + r.width / 2

/-- `Rectangle::center_y`: `self.y + self.height / 2.0`. -/
def Rectangle.center_y (r : Rectangle) : ℚ := r.y + r.height / 2

/-- A layout node (host `iced_native::layout::Node`): a resolved size plus
child nodes. -/
inductive Node where
  | mk : Size → List Node → Node

/-- The size carried by a layout node. -/
def Node.size : Node → Size
  | .mk s _ => s

/-- The children carried by a layout node. -/
def Node.children : Node → List Node
  | .mk _ c => c

/-- `Node::new(size)`: a childless node carrying `size`. -/
def Node.new (size : Size) : Node := .mk size []

/-- The host measurement oracle (the `iced_native::text::Renderer` trait
operations that `IconText` consumes): a default glyph size, a default font,
and a measure operation returning a `(width, height)` pair. -/
structure TextRenderer (Font : Type) where
  default_size : Nat
  default_font : Font
  measure : String → Nat → Font → Size → ℚ × ℚ

/-- The host layout-limits interface (the `iced_native::layout::Limits`
methods that `IconText::layout` consumes), over an abstract limits type `L`:
intersect with a width policy, intersect with a height policy, report the
maximum box, and resolve a measured size. -/
structure LimitsIface (L : Type) where
  width : L → Length → L
  height : L → Length → L
  max : L → Size
  resolve : L → Size → Size

/-- The ambient draw style (host `iced_native::renderer::Style`). -/
structure Style where
  text_color : Color
deriving DecidableEq

/-- The argument record of the host paint primitive
`iced_native::text::Text`.  Its `size` field is modelled as `Option Nat`
because the source supplies `f32::from(self.size)` with
`self.size : Option<u16>` — the raw optional, with no default resolution. -/
structure Text (Font : Type) where
  content : String
  bounds : Rectangle
  size : Option Nat
  color : Color
  font : Font
  horizontal_alignment : Horizontal
  vertical_alignment : Vertical

/-- The `IconText` widget configuration (fields of the source struct,
lines 16–33).  `Font` is the host renderer's opaque font-handle type. -/
structure IconText (Font : Type) where
  content : String
  size : Option Nat
  color : Option Color
  font : Option Font
  width : Length
  height : Length
  horizontal_alignment : Horizontal
  vertical_alignment : Vertical

/-- `IconText::new(label)` (source lines 40–51). -/
def IconText.new {Font : Type} (label : String) : IconText Font :=
  { content := label
    size := none
    color := none
    font := none
    width := Length.Shrink
    height := Length.Shrink
    horizontal_alignment := Horizontal.Center
    vertical_alignment := Vertical.Center }

/-- Builder method `size` (source lines 54–57); named `withSize` because the
field projection already takes the source name. -/
def IconText.withSize {Font : Type} (t : IconText Font) (size : Nat) :
    IconText Font :=
  { t with size := some size }

/-- Builder method `color` (source lines 60–63). -/
def IconText.withColor {Font : Type} (t : IconText Font) (color : Color) :
    IconText Font :=
  { t with color := some color }

/-- Builder method `font` (source lines 66–69). -/
def IconText.withFont {Font : Type} (t : IconText Font) (font : Font) :
    IconText Font :=
  { t with font := some font }

/-- Builder method `width` (source lines 72–75). -/
def IconText.withWidth {Font : Type} (t : IconText Font) (width : Length) :
    IconText Font :=
  { t with width := width }

/-- Builder method `height` (source lines 78–81). -/
def IconText.withHeight {Font : Type} (t : IconText Font) (height : Length) :
    IconText Font :=
  { t with height := height }

/-- Builder method `horizontal_alignment` (source lines 85–88). -/
def IconText.withHorizontalAlignment {Font : Type} (t : IconText Font)
    (alignment : Horizontal) : IconText Font :=
  { t with horizontal_alignment := alignment }

/-- Builder method `vertical_alignment` (source lines 92–95). -/
def IconText.withVerticalAlignment {Font : Type} (t : IconText Font)
    (alignment : Vertical) : IconText Font :=
  { t with vertical_alignment := alignment }

/-- The font argument of the `renderer.measure` call inside `layout`
(source line 124): `self.font.unwrap_or_else(|| renderer.default_font())`. -/
def IconText.layout_measure_font {Font : Type} (t : IconText Font)
    (r : TextRenderer Font) : Font :=
  t.font.getD r.default_font

/-- `IconText::layout` (source lines 110–131): intersect the limits with the
widget's width and height policies, resolve the effective size and font,
measure the content within the limits' maximum box, resolve the measured
size through the limits, and return a childless node of that size. -/
def IconText.layout {Font L : Type} (t : IconText Font)
    (r : TextRenderer Font) (ops : LimitsIface L) (limits : L) : Node :=
  let limits := ops.height (ops.width limits t.width) t.height
  let size := t.size.getD r.default_size
  let bounds := ops.max limits
  let m := r.measure t.content size (t.layout_measure_font r) bounds
  let size := ops.resolve limits (Size.new m.1 m.2)
  Node.new size

/-- The font argument of the `fill_text` call inside `draw` (source line
160): `self.font.unwrap_or_else(crate::graphics::icons::ICON_FONT)`.  The
crate-level `ICON_FONT` constant is passed in as the `iconFont` parameter. -/
def IconText.draw_font {Font : Type} (t : IconText Font) (iconFont : Font) :
    Font :=
  t.font.getD iconFont

/-- The full argument record of the single `fill_text` call inside `draw`
(source lines 141–163): anchor coordinates from the alignment fields, the
paint rectangle as the layout bounds with `x`/`y` replaced by the anchor,
the raw optional size (`f32::from(self.size)`, no default resolution),
the color falling back to the ambient style, and the font falling back to
`ICON_FONT`. -/
def IconText.fill_text_arg {Font : Type} (t : IconText Font) (iconFont : Font)
    (style : Style) (bounds : Rectangle) : Text Font :=
  let x := match t.horizontal_alignment with
    | Horizontal.Left => bounds.x
    | Horizontal.Center => bounds.center_x
    | Horizontal.Right => bounds.x + bounds.width
  let y := match t.vertical_alignment with
    | Vertical.Top => bounds.y
    | Vertical.Center => bounds.center_y
    | Vertical.Bottom => bounds.y + bounds.height
  { content := t.content
    bounds := { bounds with x := x, y := y }
    size := t.size
    color := t.color.getD style.text_color
    font := t.draw_font iconFont
    horizontal_alignment := t.horizontal_alignment
    vertical_alignment := t.vertical_alignment }

/-- `IconText::draw` (source lines 133–164): the paint target is modelled as
the list of primitives emitted so far; `draw` appends the one `fill_text`
argument record and nothing else.  `cursor_position` and `viewport` are part
of the signature but unused by the widget. -/
def IconText.draw {Font : Type} (t : IconText Font) (iconFont : Font)
    (style : Style) (layout_bounds : Rectangle) (cursor_position : Point)
    (viewport : Rectangle) (out : List (Text Font)) : List (Text Font) :=
  out ++ [t.fill_text_arg iconFont style layout_bounds]

/-- One unit of data fed to the host hasher by `hash_layout`: the private
`Marker` type id, a hashed string field, a hashed optional size, or a hashed
length policy.  Rust's derived hashing of these fields is injective on each
unit (strings are fed with a terminator, so the stream is prefix-free),
which the structured-token model reflects. -/
inductive HashToken where
  | marker : HashToken
  | str : String → HashToken
  | optNat : Option Nat → HashToken
  | len : Length → HashToken
deriving DecidableEq

/-- `IconText::hash_layout` (source lines 166–175): feeds the hasher the
`Marker` type id, then `content`, `size`, `width` and `height` — and no
other field. -/
def IconText.hash_layout {Font : Type} (t : IconText Font) : List HashToken :=
  [HashToken.marker, HashToken.str t.content, HashToken.optNat t.size,
   HashToken.len t.width, HashToken.len t.height]

/-- `impl Clone for IconText` (source lines 187–200): a fresh value built
field by field from the original. -/
def IconText.clone {Font : Type} (t : IconText Font) : IconText Font :=
  { content := t.content
    size := t.size
    color := t.color
    font := t.font
    width := t.width
    height := t.height
    horizontal_alignment := t.horizontal_alignment
    vertical_alignment := t.vertical_alignment }

/-- C1: for every `IconText`, content string, limits object and measurement
oracle, `layout` returns a childless node whose size is
`limits2.resolve (measure content effective_size effective_font
limits2.max)`, where `limits2` is the given limits intersected with the
widget's width and height policies, `effective_size` is the explicit size if
set else the oracle's default, and `effective_font` is the explicit font if
set else the oracle's default font. -/
theorem layout_contract {Font L : Type} (t : IconText Font)
    (r : TextRenderer Font) (ops : LimitsIface L) (limits : L) :
    (t.layout r ops limits).children = [] ∧
    (t.layout r ops limits).size =
      ops.resolve (ops.height (ops.width limits t.width) t.height)
        (Size.new
          (r.measure t.content (t.size.getD r.default_size)
            (t.font.getD r.default_font)
            (ops.max (ops.height (ops.width limits t.width) t.height))).1
          (r.measure t.content (t.size.getD r.default_size)
            (t.font.getD r.default_font)
            (ops.max (ops.height (ops.width limits t.width) t.height))).2) :=
  ⟨rfl, rfl⟩

/-- C2 (refuting the claim as stated): the size field of the `fill_text`
argument record built by `draw` is the widget's raw optional size with no
fallback to the oracle's default — in particular, for `IconText::new("x")`
(no explicit size) it is `none`, not the oracle default, contradicting the
claim that `draw` resolves the size the same way `layout` does. -/
theorem draw_size_ignores_default_size {Font : Type} (t : IconText Font)
    (iconFont : Font) (style : Style) (bounds : Rectangle) :
    (t.fill_text_arg iconFont style bounds).size = t.size ∧
    ((@IconText.new Nat "x").fill_text_arg 0 ⟨⟨0, 0, 0, 1⟩⟩
      ⟨0, 0, 10, 10⟩).size = none :=
  ⟨rfl, rfl⟩

/-- C3: the paint rectangle passed to `fill_text` equals the layout bounds
with `x` replaced by the horizontal anchor (Left → x, Center → x + width/2,
Right → x + width) and `y` replaced by the vertical anchor (Top → y,
Center → y + height/2, Bottom → y + height), width and height unchanged;
in particular for bounds ⟨10, 20, 100, 50⟩ the anchors are (10, 20) for
Left/Top, (60, 45) for Center/Center and (110, 70) for Right/Bottom. -/
theorem draw_anchor_rect {Font : Type} (t : IconText Font) (iconFont : Font)
    (style : Style) (bounds : Rectangle) :
    ((t.fill_text_arg iconFont style bounds).bounds =
      { bounds with
          x := match t.horizontal_alignment with
            | Horizontal.Left => bounds.x
            | Horizontal.Center => bounds.x + bounds.width / 2
            | Horizontal.Right => bounds.x + bounds.width
          y := match t.vertical_alignment with
            | Vertical.Top => bounds.y
            | Vertical.Center => bounds.y + bounds.height / 2
            | Vertical.Bottom => bounds.y + bounds.height }) ∧
    ((((@IconText.new Nat "x").withHorizontalAlignment
        Horizontal.Left).withVerticalAlignment Vertical.Top).fill_text_arg
        0 ⟨⟨0, 0, 0, 1⟩⟩ ⟨10, 20, 100, 50⟩).bounds = ⟨10, 20, 100, 50⟩ ∧
    ((@IconText.new Nat "x").fill_text_arg
        0 ⟨⟨0, 0, 0, 1⟩⟩ ⟨10, 20, 100, 50⟩).bounds = ⟨60, 45, 100, 50⟩ ∧
    ((((@IconText.new Nat "x").withHorizontalAlignment
        Horizontal.Right).withVerticalAlignment Vertical.Bottom).fill_text_arg
        0 ⟨⟨0, 0, 0, 1⟩⟩ ⟨10, 20, 100, 50⟩).bounds = ⟨110, 70, 100, 50⟩ := by
  refine ⟨?_,
    by norm_num [IconText.fill_text_arg, IconText.new,
      IconText.withHorizontalAlignment, IconText.withVerticalAlignment,
      Rectangle.center_x, Rectangle.center_y],
    by norm_num [IconText.fill_text_arg, IconText.new,
      IconText.withHorizontalAlignment, IconText.withVerticalAlignment,
      Rectangle.center_x, Rectangle.center_y],
    by norm_num [IconText.fill_text_arg, IconText.new,
      IconText.withHorizontalAlignment, IconText.withVerticalAlignment,
      Rectangle.center_x, Rectangle.center_y]⟩
  cases h : t.horizontal_alignment <;> cases v : t.vertical_alignment <;>
    simp [IconText.fill_text_arg, Rectangle.center_x, Rectangle.center_y, h, v]

/-- C4: one call to `draw` appends exactly one primitive (the `fill_text`
argument record) to the paint target and performs no other mutation, and
the color of that primitive is the explicit color if set, else the ambient
style's default text color. -/
theorem draw_appends_one_primitive {Font : Type} (t : IconText Font)
    (iconFont : Font) (style : Style) (layout_bounds : Rectangle)
    (cursor_position : Point) (viewport : Rectangle)
    (out : List (Text Font)) :
    t.draw iconFont style layout_bounds cursor_position viewport out =
      out ++ [t.fill_text_arg iconFont style layout_bounds] ∧
    (t.fill_text_arg iconFont style layout_bounds).color =
      t.color.getD style.text_color :=
  ⟨rfl, rfl⟩

/-- C5: two `IconText` values that agree on `content`, `size`, `width` and
`height` (in particular, ones differing only in color, font or alignment)
feed the hasher identical data, and two values with different `content`
always feed it different data. -/
theorem hash_layout_scope {Font : Type} (t₁ t₂ : IconText Font) :
    (t₁.content = t₂.content → t₁.size = t₂.size → t₁.width = t₂.width →
      t₁.height = t₂.height → t₁.hash_layout = t₂.hash_layout) ∧
    (t₁.content ≠ t₂.content → t₁.hash_layout ≠ t₂.hash_layout) := by
  constructor
  · intro h₁ h₂ h₃ h₄
    simp [IconText.hash_layout, h₁, h₂, h₃, h₄]
  · intro h hc
    apply h
    have hfields := hc
    simp [IconText.hash_layout] at hfields
    exact hfields.1

/-- Witness for C5: a color override leaves the hash data unchanged, and a
content change always changes it. -/
theorem hash_layout_scope_witness :
    ((@IconText.new Nat "x").withColor ⟨1, 0, 0, 1⟩).hash_layout =
      (@IconText.new Nat "x").hash_layout ∧
    (@IconText.new Nat "x").hash_layout ≠
      (@IconText.new Nat "y").hash_layout :=
  ⟨(hash_layout_scope _ _).1 rfl rfl rfl rfl,
   (hash_layout_scope _ _).2 (by decide)⟩

/-- C6: `new label` stores the content and leaves every other field at its
default: Shrink width and height, Center/Center alignment, and absent
optional size, color and font. -/
theorem new_defaults {Font : Type} (label : String) :
    (@IconText.new Font label).content = label ∧
    (@IconText.new Font label).size = none ∧
    (@IconText.new Font label).color = none ∧
    (@IconText.new Font label).font = none ∧
    (@IconText.new Font label).width = Length.Shrink ∧
    (@IconText.new Font label).height = Length.Shrink ∧
    (@IconText.new Font label).horizontal_alignment = Horizontal.Center ∧
    (@IconText.new Font label).vertical_alignment = Vertical.Center :=
  ⟨rfl, rfl, rfl, rfl, rfl, rfl, rfl, rfl⟩

/-- C7: the size builder is last-write-wins — setting the size twice yields
the value obtained by setting only the second size, whose explicit size is
`some b`; the earlier write is not observable. -/
theorem size_last_write_wins {Font : Type} (t : IconText Font) (a b : Nat) :
    (t.withSize a).withSize b = t.withSize b ∧
    ((t.withSize a).withSize b).size = some b :=
  ⟨rfl, rfl⟩

/-- C8: each builder method returns the input value with exactly its one
corresponding field replaced by the argument and every other field
untouched, and has no other effect. -/
theorem builder_frame {Font : Type} (t : IconText Font) (s : Nat) (c : Color)
    (f : Font) (w hl : Length) (ha : Horizontal) (va : Vertical) :
    t.withSize s = { t with size := some s } ∧
    t.withColor c = { t with color := some c } ∧
    t.withFont f = { t with font := some f } ∧
    t.withWidth w = { t with width := w } ∧
    t.withHeight hl = { t with height := hl } ∧
    t.withHorizontalAlignment ha = { t with horizontal_alignment := ha } ∧
    t.withVerticalAlignment va = { t with vertical_alignment := va } :=
  ⟨rfl, rfl, rfl, rfl, rfl, rfl, rfl⟩

/-- C9: `clone` produces a field-wise equal, independent copy — applying any
builder method to the clone yields a value whose other fields still equal
the original's fields, and (values being immutable in the embedding) the
original itself is unchanged. -/
theorem clone_independent {Font : Type} (t : IconText Font) (s : Nat)
    (c : Color) (f : Font) (w hl : Length) (ha : Horizontal) (va : Vertical) :
    t.clone = t ∧
    (t.clone).withSize s = { t with size := some s } ∧
    (t.clone).withColor c = { t with color := some c } ∧
    (t.clone).withFont f = { t with font := some f } ∧
    (t.clone).withWidth w = { t with width := w } ∧
    (t.clone).withHeight hl = { t with height := hl } ∧
    (t.clone).withHorizontalAlignment ha =
      { t with horizontal_alignment := ha } ∧
    (t.clone).withVerticalAlignment va =
      { t with vertical_alignment := va } :=
  ⟨rfl, rfl, rfl, rfl, rfl, rfl, rfl, rfl⟩

/-- C10: when no explicit font is set, `draw` passes the crate's `ICON_FONT`
constant to `fill_text` while `layout` measures with the renderer's default
font; the two agree exactly when the renderer's default font is that
`ICON_FONT` constant. -/
theorem default_font_asymmetry {Font : Type} (t : IconText Font)
    (iconFont : Font) (r : TextRenderer Font) (h : t.font = none) :
    t.draw_font iconFont = iconFont ∧
    t.layout_measure_font r = r.default_font ∧
    (t.draw_font iconFont = t.layout_measure_font r ↔
      iconFont = r.default_font) := by
  simp [IconText.draw_font, IconText.layout_measure_font, h]

/-- Witness for C10 at `new "x"` (no explicit font), icon font `7`, and a
renderer whose default font is `7`. -/
theorem default_font_asymmetry_witness :
    (@IconText.new Nat "x").draw_font 7 = 7 ∧
    (@IconText.new Nat "x").layout_measure_font
      ⟨16, 7, fun _ _ _ _ => (0, 0)⟩ = 7 ∧
    ((@IconText.new Nat "x").draw_font 7 =
        (@IconText.new Nat "x").layout_measure_font
          ⟨16, 7, fun _ _ _ _ => (0, 0)⟩ ↔
      7 = (TextRenderer.mk 16 7 (fun _ _ _ _ => ((0 : ℚ), (0 : ℚ)))
        : TextRenderer Nat).default_font) :=
  default_font_asymmetry (@IconText.new Nat "x") 7
    ⟨16, 7, fun _ _ _ _ => (0, 0)⟩ rfl

end IconTextSpec
